import Mathlib

/-!
Verification of the packet-filter, message-dispatch and configuration logic of
the evohome/ramses_rf gateway, as a shallow embedding in Lean 4.

Strings are modelled as `List Char`.  A `Packet` is the structured form of one
wire line; `Packet.packet` renders it exactly as the source's `pkt.packet`
string (single spaces between the nine fields), so that the source's Python
substring tests (`" 18:" in pkt.packet`, `device in pkt.packet`) can be
embedded faithfully as substring tests on the rendered line.
-/

namespace EvohomeRF

/-- Python's `sub in s` substring test on lists of characters. -/
def containsSub (s sub : List Char) : Bool :=
  sub.isPrefixOf s ||
    (match s with
     | [] => false
     | _ :: t => containsSub t sub)

theorem containsSub_iff (s sub : List Char) :
    containsSub s sub = true ↔ sub <:+: s := by
  induction s with
  | nil =>
    simp [containsSub, List.isPrefixOf_iff_prefix, List.prefix_nil,
      List.infix_nil]
  | cons a t ih =>
    simp only [containsSub, Bool.or_eq_true, List.isPrefixOf_iff_prefix, ih,
      List.infix_cons_iff]

/-- The three device addresses of a wire line, plus the surrounding fields. -/
structure Packet where
  rssi : List Char
  verb : List Char
  seq : List Char
  addr0 : List Char
  addr1 : List Char
  addr2 : List Char
  code : List Char
  len : List Char
  payload : List Char

/-- The rendered wire line, i.e. the source's `pkt.packet` string. -/
def Packet.packet (p : Packet) : List Char :=
  p.rssi ++ ' ' :: p.verb ++ ' ' :: p.seq ++ ' ' :: p.addr0 ++ ' ' :: p.addr1
    ++ ' ' :: p.addr2 ++ ' ' :: p.code ++ ' ' :: p.len ++ ' ' :: p.payload

/-- The sentinel address `--:------` (meaning "no device"). -/
def SENTINEL : List Char := "--:------".toList

/-- `\d{2}:\d{6}` — a concrete device id (regex `d` of `const.py`). -/
def isDevId : List Char → Bool
  | [a, b, c, d, e, f, g, h, i] =>
    a.isDigit && b.isDigit && c == ':' && d.isDigit && e.isDigit && f.isDigit
      && g.isDigit && h.isDigit && i.isDigit
  | _ => false

/-- Regex `d` of `const.py`: a device-id field is the sentinel or `\d{2}:\d{6}`. -/
def addrOk (a : List Char) : Bool := a == SENTINEL || isDevId a

/-- Regex `v` of `const.py`: `( I|RP|RQ| W)`. -/
def verbOk (v : List Char) : Bool :=
  v == " I".toList || v == "RP".toList || v == "RQ".toList || v == " W".toList

/-- Three decimal digits. -/
def isDigits3 : List Char → Bool
  | [a, b, c] => a.isDigit && b.isDigit && c.isDigit
  | _ => false

/-- Regex `r` of `const.py`: `(-{3}|\d{3}|\.{3})` (RSSI, also the seq field). -/
def rssiOk (f : List Char) : Bool :=
  f == "---".toList || f == "...".toList || isDigits3 f

/-- An uppercase hex character, `[0-9A-F]`. -/
def isHexU (c : Char) : Bool := c.isDigit || ('A' ≤ c && c ≤ 'F')

/-- Regex `c` of `const.py`: `[0-9A-F]{4}`. -/
def codeOk : List Char → Bool
  | [a, b, c, d] => isHexU a && isHexU b && isHexU c && isHexU d
  | _ => false

/-- Regex `p` of `const.py`: `([0-9A-F]{2}){1,48}`. -/
def payloadOk (f : List Char) : Bool :=
  f.all isHexU && f.length % 2 == 0 && 2 ≤ f.length && f.length ≤ 96

/-- `MESSAGE_REGEX` of `const.py`: `^{r} {v} {r} {d} {d} {d} {c} {l} {p}$`,
applied to the structured fields of the line. -/
def pktMatchesRegex (p : Packet) : Bool :=
  rssiOk p.rssi && verbOk p.verb && rssiOk p.seq && addrOk p.addr0
    && addrOk p.addr1 && addrOk p.addr2 && codeOk p.code && isDigits3 p.len
    && payloadOk p.payload

/-- The pattern of the HGI-adapter test in `has_wanted_device`: `" 18:"`. -/
def HGI_PAT : List Char := " 18:".toList

/-- `has_wanted_device` of `evohome/__init__.py` (`Gateway._process_pkt`):
admit iff the line contains `" 18:"`, else (whitelist non-empty) iff some
whitelisted id occurs in the line, else iff no blacklisted id occurs. -/
def has_wanted_device (pktStr : List Char)
    (dev_whitelist dev_blacklist : List (List Char)) : Bool :=
  if containsSub pktStr HGI_PAT then true
  else if !dev_whitelist.isEmpty then
    dev_whitelist.any (fun device => containsSub pktStr device)
  else
    !(dev_blacklist.any (fun device => containsSub pktStr device))

/-! ### Where a substring can occur in a space-separated line -/

/-- A pattern without the separator that is a prefix of `x ++ c :: y` is
already a prefix of `x`. -/
theorem prefx_of_prefx_append_cons {q x y : List Char} {c : Char}
    (hc : c ∉ q) (h : q <+: x ++ c :: y) : q <+: x := by
  induction q generalizing x with
  | nil => exact List.nil_prefix
  | cons a q' ih =>
    cases x with
    | nil =>
      rw [List.nil_append, List.cons_prefix_cons] at h
      exact absurd (h.1 ▸ List.mem_cons_self a q') hc
    | cons b x' =>
      rw [List.cons_append, List.cons_prefix_cons] at h
      exact List.cons_prefix_cons.mpr
        ⟨h.1, ih (fun m => hc (List.mem_cons_of_mem a m)) h.2⟩

/-- A pattern without the separator occurs in `x ++ c :: y` iff it occurs in
`x` or in `y`. -/
theorem infx_append_cons_iff {q x y : List Char} {c : Char} (hc : c ∉ q) :
    q <:+: x ++ c :: y ↔ q <:+: x ∨ q <:+: y := by
  constructor
  · intro h
    induction x with
    | nil =>
      rw [List.nil_append, List.infix_cons_iff] at h
      rcases h with h | h
      · cases q with
        | nil => exact Or.inl List.nil_infix
        | cons a q' =>
          rw [List.cons_prefix_cons] at h
          exact absurd (h.1 ▸ List.mem_cons_self a q') hc
      · exact Or.inr h
    | cons b x' ih =>
      rw [List.cons_append, List.infix_cons_iff] at h
      rcases h with h | h
      · rw [← List.cons_append] at h
        exact Or.inl (prefx_of_prefx_append_cons hc h).isInfix
      · rcases ih h with h' | h'
        · exact Or.inl (List.infix_cons h')
        · exact Or.inr h'
  · intro h
    rcases h with h | h
    · exact h.trans ⟨[], c :: y, by simp⟩
    · exact h.trans ⟨x ++ [c], [], by simp⟩

/-- A pattern whose only separator is its leading character occurs in
`x ++ c :: y` iff it occurs in `x`, or its tail is a prefix of `y`, or it
occurs in `y`. -/
theorem cons_infx_append_cons_iff {q x y : List Char} {c : Char} (hc : c ∉ q) :
    (c :: q) <:+: x ++ c :: y ↔
      (c :: q) <:+: x ∨ q <+: y ∨ (c :: q) <:+: y := by
  constructor
  · intro h
    induction x with
    | nil =>
      rw [List.nil_append, List.infix_cons_iff] at h
      rcases h with h | h
      · rw [List.cons_prefix_cons] at h
        exact Or.inr (Or.inl h.2)
      · exact Or.inr (Or.inr h)
    | cons b x' ih =>
      rw [List.cons_append, List.infix_cons_iff] at h
      rcases h with h | h
      · rw [List.cons_prefix_cons] at h
        obtain ⟨hb, hq⟩ := h
        exact Or.inl (hb ▸
          (List.cons_prefix_cons.mpr
            ⟨rfl, prefx_of_prefx_append_cons hc hq⟩).isInfix)
      · rcases ih h with h' | h' | h'
        · exact Or.inl (List.infix_cons h')
        · exact Or.inr (Or.inl h')
        · exact Or.inr (Or.inr h')
  · intro h
    rcases h with h | h | h
    · exact h.trans ⟨[], c :: y, by simp⟩
    · exact (List.cons_prefix_cons.mpr ⟨rfl, h⟩).isInfix.trans
        ⟨x, [], by simp⟩
    · exact h.trans ⟨x ++ [c], [], by simp⟩

/-! ### Facts about the fields of a line matching `MESSAGE_REGEX` -/

theorem isDigit_ne_colon {c : Char} (h : c.isDigit = true) : c ≠ ':' := by
  intro he
  subst he
  exact absurd h (by decide)

theorem isDigit_ne_space {c : Char} (h : c.isDigit = true) : c ≠ ' ' := by
  intro he
  subst he
  exact absurd h (by decide)

theorem isHexU_ne_colon {c : Char} (h : isHexU c = true) : c ≠ ':' := by
  intro he
  subst he
  exact absurd h (by decide)

theorem isHexU_ne_space {c : Char} (h : isHexU c = true) : c ≠ ' ' := by
  intro he
  subst he
  exact absurd h (by decide)

theorem isDevId_facts {d : List Char} (h : isDevId d = true) :
    d.length = 9 ∧ ':' ∈ d ∧ ' ' ∉ d := by
  unfold isDevId at h
  split at h
  case _ a b c d1 d2 d3 d4 d5 d6 =>
    simp only [Bool.and_eq_true, beq_iff_eq] at h
    obtain ⟨⟨⟨⟨⟨⟨⟨⟨ha, hb⟩, hc⟩, h1⟩, h2⟩, h3⟩, h4⟩, h5⟩, h6⟩ := h
    subst hc
    refine ⟨rfl, by simp, ?_⟩
    simp only [List.mem_cons, List.not_mem_nil, or_false]
    push_neg
    exact ⟨(isDigit_ne_space ha).symm, (isDigit_ne_space hb).symm, by decide,
      (isDigit_ne_space h1).symm, (isDigit_ne_space h2).symm,
      (isDigit_ne_space h3).symm, (isDigit_ne_space h4).symm,
      (isDigit_ne_space h5).symm, (isDigit_ne_space h6).symm⟩
  case _ => exact absurd h (by simp)

theorem addrOk_length {a : List Char} (h : addrOk a = true) : a.length = 9 := by
  rcases Bool.or_eq_true _ _ |>.mp h with h' | h'
  · rw [beq_iff_eq] at h'
    subst h'
    rfl
  · exact (isDevId_facts h').1

theorem addrOk_no_space {a : List Char} (h : addrOk a = true) : ' ' ∉ a := by
  rcases Bool.or_eq_true _ _ |>.mp h with h' | h'
  · rw [beq_iff_eq] at h'
    subst h'
    decide
  · exact (isDevId_facts h').2.2

theorem verbOk_length {v : List Char} (h : verbOk v = true) : v.length = 2 := by
  rcases Bool.or_eq_true _ _ |>.mp h with h' | h'
  rcases Bool.or_eq_true _ _ |>.mp h' with h' | h'
  rcases Bool.or_eq_true _ _ |>.mp h' with h' | h'
  all_goals rw [beq_iff_eq] at h'
  all_goals subst h'
  all_goals rfl

theorem isDigits3_length {f : List Char} (h : isDigits3 f = true) :
    f.length = 3 := by
  unfold isDigits3 at h
  split at h
  · rfl
  · exact absurd h (by simp)

theorem rssiOk_length {f : List Char} (h : rssiOk f = true) : f.length = 3 := by
  rcases Bool.or_eq_true _ _ |>.mp h with h' | h'
  rcases Bool.or_eq_true _ _ |>.mp h' with h' | h'
  · rw [beq_iff_eq] at h'
    subst h'
    rfl
  · rw [beq_iff_eq] at h'
    subst h'
    rfl
  · exact isDigits3_length h'

theorem codeOk_length {f : List Char} (h : codeOk f = true) : f.length = 4 := by
  unfold codeOk at h
  split at h
  · rfl
  · exact absurd h (by simp)

theorem payloadOk_chars {f : List Char} (h : payloadOk f = true) :
    ∀ c ∈ f, isHexU c = true := by
  have h1 : f.all isHexU = true := by
    unfold payloadOk at h
    simp only [Bool.and_eq_true] at h
    exact h.1.1.1
  exact List.all_eq_true.mp h1

theorem not_infx_of_length_lt {d f : List Char} (h : f.length < d.length) :
    ¬ d <:+: f := fun hi => absurd hi.length_le (by omega)

/-! ### Occurrence of a device id in a valid line -/

/-- In a line matching `MESSAGE_REGEX`, a device id occurs as a substring iff
it is one of the line's three addresses. -/
theorem devId_occurs_iff (p : Packet) (hv : pktMatchesRegex p = true)
    {d : List Char} (hd : isDevId d = true) :
    containsSub p.packet d = true ↔ d = p.addr0 ∨ d = p.addr1 ∨ d = p.addr2 := by
  obtain ⟨hlen9, hcolon, hspace⟩ := isDevId_facts hd
  unfold pktMatchesRegex at hv
  simp only [Bool.and_eq_true] at hv
  obtain ⟨⟨⟨⟨⟨⟨⟨⟨hrssi, hverb⟩, hseq⟩, ha0⟩, ha1⟩, ha2⟩, hcode⟩, hlen⟩, hpay⟩ := hv
  rw [containsSub_iff]
  constructor
  · intro h
    simp only [Packet.packet, List.cons_append, List.append_assoc] at h
    rcases (infx_append_cons_iff hspace).mp h with h | h
    · exact absurd h (not_infx_of_length_lt (by rw [rssiOk_length hrssi, hlen9]; omega))
    rcases (infx_append_cons_iff hspace).mp h with h | h
    · exact absurd h (not_infx_of_length_lt (by rw [verbOk_length hverb, hlen9]; omega))
    rcases (infx_append_cons_iff hspace).mp h with h | h
    · exact absurd h (not_infx_of_length_lt (by rw [rssiOk_length hseq, hlen9]; omega))
    rcases (infx_append_cons_iff hspace).mp h with h | h
    · exact Or.inl (h.eq_of_length (by rw [addrOk_length ha0, hlen9]))
    rcases (infx_append_cons_iff hspace).mp h with h | h
    · exact Or.inr (Or.inl (h.eq_of_length (by rw [addrOk_length ha1, hlen9])))
    rcases (infx_append_cons_iff hspace).mp h with h | h
    · exact Or.inr (Or.inr (h.eq_of_length (by rw [addrOk_length ha2, hlen9])))
    rcases (infx_append_cons_iff hspace).mp h with h | h
    · exact absurd h (not_infx_of_length_lt (by rw [codeOk_length hcode, hlen9]; omega))
    rcases (infx_append_cons_iff hspace).mp h with h | h
    · exact absurd h (not_infx_of_length_lt (by rw [isDigits3_length hlen, hlen9]; omega))
    · exact absurd (isHexU_ne_colon (payloadOk_chars hpay ':' (h.subset hcolon)))
        (fun hne => hne rfl)
  · intro h
    rcases h with h | h | h
    · exact ⟨p.rssi ++ ' ' :: p.verb ++ ' ' :: p.seq ++ [' '],
        ' ' :: p.addr1 ++ ' ' :: p.addr2 ++ ' ' :: p.code ++ ' ' :: p.len
          ++ ' ' :: p.payload,
        by subst h; simp [Packet.packet]⟩
    · exact ⟨p.rssi ++ ' ' :: p.verb ++ ' ' :: p.seq ++ ' ' :: p.addr0 ++ [' '],
        ' ' :: p.addr2 ++ ' ' :: p.code ++ ' ' :: p.len ++ ' ' :: p.payload,
        by subst h; simp [Packet.packet]⟩
    · exact ⟨p.rssi ++ ' ' :: p.verb ++ ' ' :: p.seq ++ ' ' :: p.addr0
          ++ ' ' :: p.addr1 ++ [' '],
        ' ' :: p.code ++ ' ' :: p.len ++ ' ' :: p.payload,
        by subst h; simp [Packet.packet]⟩

/-! ### Occurrence of the adapter pattern `" 18:"` in a valid line -/

/-- The adapter pattern without its leading space. -/
def PAT18 : List Char := "18:".toList

theorem codeOk_chars {f : List Char} (h : codeOk f = true) :
    ∀ c ∈ f, isHexU c = true := by
  unfold codeOk at h
  split at h
  · simp only [Bool.and_eq_true] at h
    intro c hc
    simp only [List.mem_cons, List.not_mem_nil, or_false] at hc
    rcases hc with hc | hc | hc | hc
    all_goals subst hc
    · exact h.1.1.1
    · exact h.1.1.2
    · exact h.1.2
    · exact h.2
  · exact absurd h (by simp)

/-- In a field that is the sentinel or a device id, `"18:"` is a prefix iff
the device class is `18`. -/
theorem addr_cls18_iff {a : List Char} (h : addrOk a = true) :
    PAT18 <+: a ↔ a.take 2 = "18".toList := by
  rcases Bool.or_eq_true _ _ |>.mp h with h' | h'
  · rw [beq_iff_eq] at h'
    subst h'
    constructor
    · intro hp
      exact absurd hp (by decide)
    · intro ht
      exact absurd ht (by decide)
  · unfold isDevId at h'
    split at h'
    case _ x y c d1 d2 d3 d4 d5 d6 =>
      simp only [Bool.and_eq_true, beq_iff_eq] at h'
      obtain ⟨⟨⟨⟨⟨⟨⟨⟨_, _⟩, hc⟩, _⟩, _⟩, _⟩, _⟩, _⟩, _⟩ := h'
      subst hc
      constructor
      · intro hp
        rw [show PAT18 = '1' :: '8' :: [':'] from rfl] at hp
        rw [List.cons_prefix_cons] at hp
        obtain ⟨h1, hp⟩ := hp
        rw [List.cons_prefix_cons] at hp
        obtain ⟨h8, -⟩ := hp
        rw [← h1, ← h8]
        rfl
      · intro ht
        have ht' : x :: y :: ([] : List Char) = '1' :: '8' :: [] := ht
        injection ht' with hx1 ht''
        injection ht'' with hy1 hrest
        subst hx1
        subst hy1
        rw [show PAT18 = '1' :: '8' :: [':'] from rfl]
        exact List.cons_prefix_cons.mpr ⟨rfl, List.cons_prefix_cons.mpr
          ⟨rfl, List.cons_prefix_cons.mpr ⟨rfl, List.nil_prefix⟩⟩⟩
    case _ => exact absurd h' (by simp)

/-- In a line matching `MESSAGE_REGEX`, the pattern `" 18:"` occurs as a
substring iff one of the three addresses has device class `18`. -/
theorem hgi_occurs_iff (p : Packet) (hv : pktMatchesRegex p = true) :
    containsSub p.packet HGI_PAT = true ↔
      p.addr0.take 2 = "18".toList ∨ p.addr1.take 2 = "18".toList ∨
        p.addr2.take 2 = "18".toList := by
  unfold pktMatchesRegex at hv
  simp only [Bool.and_eq_true] at hv
  obtain ⟨⟨⟨⟨⟨⟨⟨⟨hrssi, hverb⟩, hseq⟩, ha0⟩, ha1⟩, ha2⟩, hcode⟩, hlen⟩, hpay⟩ := hv
  have hpat : HGI_PAT = ' ' :: PAT18 := rfl
  have hsp : ' ' ∉ PAT18 := by decide
  have hlen18 : PAT18.length = 3 := rfl
  rw [containsSub_iff, hpat]
  constructor
  · intro h
    simp only [Packet.packet, List.cons_append, List.append_assoc] at h
    -- dismiss a `"18:" <+: f ++ ' ' :: rest` case for a 3-char field that
    -- cannot be `"18:"` itself
    have dism3 : ∀ (f : List Char) (rest : List Char), f.length = 3 →
        f ≠ PAT18 → PAT18 <+: f ++ ' ' :: rest → False := by
      intro f rest h3 hne hp
      rw [List.isPrefix_append_of_length (by omega)] at hp
      exact hne (hp.eq_of_length (by omega)).symm
    rcases (cons_infx_append_cons_iff hsp).mp h with h | h
    · exact absurd h (not_infx_of_length_lt (by rw [rssiOk_length hrssi]; decide))
    rcases h with h | h
    · -- "18:" a prefix of verb ++ ' ' :: rest: impossible for the four verbs
      exfalso
      have hfst : ∀ (c : Char) (v rest : List Char), c ≠ '1' →
          PAT18 <+: (c :: v) ++ rest → False := by
        intro c v rest hc hp
        rw [show PAT18 = '1' :: '8' :: [':'] from rfl, List.cons_append,
          List.cons_prefix_cons] at hp
        exact hc hp.1.symm
      rcases Bool.or_eq_true _ _ |>.mp hverb with h' | h'
      rcases Bool.or_eq_true _ _ |>.mp h' with h' | h'
      rcases Bool.or_eq_true _ _ |>.mp h' with h' | h'
      all_goals rw [beq_iff_eq] at h'
      all_goals rw [h'] at h
      · exact hfst ' ' ['I'] _ (by decide) h
      · exact hfst 'R' ['P'] _ (by decide) h
      · exact hfst 'R' ['Q'] _ (by decide) h
      · exact hfst ' ' ['W'] _ (by decide) h
    rcases (cons_infx_append_cons_iff hsp).mp h with h | h
    · exact absurd h (not_infx_of_length_lt (by rw [verbOk_length hverb]; decide))
    rcases h with h | h
    · exact absurd h (fun hp => dism3 _ _ (rssiOk_length hseq)
        (fun he => absurd (he ▸ hseq) (by decide)) hp)
    rcases (cons_infx_append_cons_iff hsp).mp h with h | h
    · exact absurd h (not_infx_of_length_lt (by rw [rssiOk_length hseq]; decide))
    rcases h with h | h
    · rw [List.isPrefix_append_of_length (by rw [addrOk_length ha0]; omega)] at h
      exact Or.inl ((addr_cls18_iff ha0).mp h)
    rcases (cons_infx_append_cons_iff hsp).mp h with h | h
    · exact absurd (addrOk_no_space ha0)
        (fun hns => hns (h.subset (List.mem_cons_self ' ' PAT18)))
    rcases h with h | h
    · rw [List.isPrefix_append_of_length (by rw [addrOk_length ha1]; omega)] at h
      exact Or.inr (Or.inl ((addr_cls18_iff ha1).mp h))
    rcases (cons_infx_append_cons_iff hsp).mp h with h | h
    · exact absurd (addrOk_no_space ha1)
        (fun hns => hns (h.subset (List.mem_cons_self ' ' PAT18)))
    rcases h with h | h
    · rw [List.isPrefix_append_of_length (by rw [addrOk_length ha2]; omega)] at h
      exact Or.inr (Or.inr ((addr_cls18_iff ha2).mp h))
    rcases (cons_infx_append_cons_iff hsp).mp h with h | h
    · exact absurd (addrOk_no_space ha2)
        (fun hns => hns (h.subset (List.mem_cons_self ' ' PAT18)))
    rcases h with h | h
    · -- "18:" a prefix of code ++ ' ' :: rest: the third char of code is hex
      exfalso
      rw [List.isPrefix_append_of_length (by rw [codeOk_length hcode]; omega)] at h
      exact absurd (isHexU_ne_colon
          (codeOk_chars hcode ':' (h.sublist.subset (by decide))))
        (fun hne => hne rfl)
    rcases (cons_infx_append_cons_iff hsp).mp h with h | h
    · -- " 18:" an infix of code: code has no space
      exfalso
      exact absurd (isHexU_ne_space
          (codeOk_chars hcode ' ' (h.subset (List.mem_cons_self ' ' PAT18))))
        (fun hne => hne rfl)
    rcases h with h | h
    · exact absurd h (fun hp => dism3 _ _ (isDigits3_length hlen)
        (fun he => absurd (he ▸ hlen) (by decide)) hp)
    rcases (cons_infx_append_cons_iff hsp).mp h with h | h
    · exact absurd h (not_infx_of_length_lt (by rw [isDigits3_length hlen]; decide))
    rcases h with h | h
    · exact absurd (isHexU_ne_colon
          (payloadOk_chars hpay ':' (h.sublist.subset (by decide))))
        (fun hne => hne rfl)
    · exact absurd (isHexU_ne_space
          (payloadOk_chars hpay ' ' (h.subset (List.mem_cons_self ' ' PAT18))))
        (fun hne => hne rfl)
  · intro h
    have mk : ∀ (a : List Char), addrOk a = true → a.take 2 = "18".toList →
        ∀ (s t : List Char), s ++ (' ' :: a) ++ t = p.packet →
        (' ' :: PAT18) <:+: p.packet := by
      intro a ha hta s t heq
      have h18 : PAT18 <+: a := (addr_cls18_iff ha).mpr hta
      have hpre : (' ' :: PAT18) <+: (' ' :: a) :=
        List.cons_prefix_cons.mpr ⟨rfl, h18⟩
      exact hpre.isInfix.trans ⟨s, t, heq⟩
    rcases h with h | h | h
    · exact mk p.addr0 ha0 h (p.rssi ++ ' ' :: p.verb ++ ' ' :: p.seq)
        (' ' :: p.addr1 ++ ' ' :: p.addr2 ++ ' ' :: p.code ++ ' ' :: p.len
          ++ ' ' :: p.payload) (by simp [Packet.packet])
    · exact mk p.addr1 ha1 h
        (p.rssi ++ ' ' :: p.verb ++ ' ' :: p.seq ++ ' ' :: p.addr0)
        (' ' :: p.addr2 ++ ' ' :: p.code ++ ' ' :: p.len ++ ' ' :: p.payload)
        (by simp [Packet.packet])
    · exact mk p.addr2 ha2 h
        (p.rssi ++ ' ' :: p.verb ++ ' ' :: p.seq ++ ' ' :: p.addr0
          ++ ' ' :: p.addr1)
        (' ' :: p.code ++ ' ' :: p.len ++ ' ' :: p.payload)
        (by simp [Packet.packet])

/-! ### Concrete packets for the filter claims -/

/-- The known-devices mapping of spec scenario 4: device id, blacklist
flag. -/
def knownDevices : List (List Char × Bool) := [("01:145038".toList, false)]

/-- The whitelist built in `Gateway.start`: every known device whose
`blacklist` flag is not set. -/
def device_whitelist_of (known : List (List Char × Bool)) :
    List (List Char) :=
  (known.filter (fun kv => !kv.2)).map (fun kv => kv.1)

/-- The device whitelist of spec scenario 4. -/
def wlKnown : List (List Char) := device_whitelist_of knownDevices

/-- Scenario-4 packet with addresses `01:145038, --:------, 04:000001`. -/
def pktAdmit : Packet :=
  ⟨"045".toList, " I".toList, "---".toList, "01:145038".toList,
    "--:------".toList, "04:000001".toList, "1F09".toList, "003".toList,
    "FF073F".toList⟩

/-- Scenario-4 packet with addresses `30:111111, --:------, 30:222222`. -/
def pktDrop : Packet :=
  ⟨"045".toList, " I".toList, "---".toList, "30:111111".toList,
    "--:------".toList, "30:222222".toList, "1F09".toList, "003".toList,
    "FF073F".toList⟩

/-- A valid packet sent by the adapter device `18:000730`. -/
def pktHgiBlk : Packet :=
  ⟨"045".toList, " I".toList, "---".toList, "18:000730".toList,
    "--:------".toList, "12:227486".toList, "3EF0".toList, "003".toList,
    "00FFFF".toList⟩

/-- A block list containing the adapter device `18:000730`. -/
def blHgi : List (List Char) := ["18:000730".toList]

/-- A block list containing `30:111111`. -/
def blDrop : List (List Char) := ["30:111111".toList]

/-- Claim C1: in whitelist mode (non-empty device whitelist), a valid packet
is admitted iff one of its non-sentinel addresses is whitelisted or one of
its addresses has device class 18; the scenario-4 packet with `01:145038` is
admitted and the one with `30:111111`/`30:222222` is dropped. -/
theorem C1_whitelist_filter :
    (∀ (p : Packet) (wl bl : List (List Char)),
      pktMatchesRegex p = true →
      (∀ d ∈ wl, isDevId d = true) →
      wl ≠ [] →
      (has_wanted_device p.packet wl bl = true ↔
        (∃ a ∈ [p.addr0, p.addr1, p.addr2], a ≠ SENTINEL ∧ a ∈ wl) ∨
        (∃ a ∈ [p.addr0, p.addr1, p.addr2], a.take 2 = "18".toList))) ∧
    has_wanted_device pktAdmit.packet wlKnown [] = true ∧
    has_wanted_device pktDrop.packet wlKnown [] = false := by
  refine ⟨?_, by decide, by decide⟩
  intro p wl bl hv hwl hne
  unfold has_wanted_device
  split
  case isTrue h =>
    exact iff_of_true rfl (Or.inr (by simpa using (hgi_occurs_iff p hv).mp h))
  case isFalse h =>
    have hwlne : (!wl.isEmpty) = true := by
      cases wl with
      | nil => exact absurd rfl hne
      | cons a t => rfl
    rw [if_pos hwlne]
    constructor
    · intro hlhs
      rw [List.any_eq_true] at hlhs
      obtain ⟨d, hdwl, hdc⟩ := hlhs
      have hd := hwl d hdwl
      have hsent : ∀ x : List Char, d = x → x ≠ SENTINEL := by
        intro x he hx
        rw [hx] at he
        rw [he] at hd
        exact absurd hd (by decide)
      rcases (devId_occurs_iff p hv hd).mp hdc with he | he | he
      · exact Or.inl ⟨p.addr0, by simp, hsent _ he, he ▸ hdwl⟩
      · exact Or.inl ⟨p.addr1, by simp, hsent _ he, he ▸ hdwl⟩
      · exact Or.inl ⟨p.addr2, by simp, hsent _ he, he ▸ hdwl⟩
    · intro hrhs
      rcases hrhs with ⟨a, haL, hans, hawl⟩ | h18
      · rw [List.any_eq_true]
        refine ⟨a, hawl, (devId_occurs_iff p hv (hwl a hawl)).mpr ?_⟩
        simpa using haL
      · exact absurd ((hgi_occurs_iff p hv).mpr (by simpa using h18)) h

/-- Witness for C1: the general filter theorem applied to the scenario-4
packet `01:145038, --:------, 04:000001` and known list `["01:145038"]`. -/
theorem C1_whitelist_filter_witness :
    has_wanted_device pktAdmit.packet wlKnown [] = true ↔
      (∃ a ∈ [pktAdmit.addr0, pktAdmit.addr1, pktAdmit.addr2],
        a ≠ SENTINEL ∧ a ∈ wlKnown) ∨
      (∃ a ∈ [pktAdmit.addr0, pktAdmit.addr1, pktAdmit.addr2],
        a.take 2 = "18".toList) :=
  C1_whitelist_filter.1 pktAdmit wlKnown [] (by decide) (by decide) (by decide)

/-- Counterexample to claim C2 as stated: a valid packet whose source address
`18:000730` is on the block list is nevertheless admitted, because the
`" 18:"` adapter test runs before the block-list test. -/
theorem C2_blacklist_counterexample :
    has_wanted_device pktHgiBlk.packet [] blHgi = true ∧
    pktHgiBlk.addr0 ∈ blHgi ∧ pktMatchesRegex pktHgiBlk = true := by decide

/-- Claim C2 (amended): in blacklist mode a valid packet is dropped iff some
address is on the block list and no address has device class 18; the decision
is a function of the address triple alone (the payload never matters). -/
theorem C2_blacklist_filter :
    ∀ (p : Packet) (bl : List (List Char)),
      pktMatchesRegex p = true →
      (∀ d ∈ bl, isDevId d = true) →
      (has_wanted_device p.packet [] bl = false ↔
        (∃ a ∈ [p.addr0, p.addr1, p.addr2], a ∈ bl) ∧
        ¬ (∃ a ∈ [p.addr0, p.addr1, p.addr2], a.take 2 = "18".toList)) := by
  intro p bl hv hbl
  unfold has_wanted_device
  split
  case isTrue h =>
    refine iff_of_false (by simp) ?_
    rintro ⟨-, h18⟩
    exact h18 (by simpa using (hgi_occurs_iff p hv).mp h)
  case isFalse h =>
    have h18 : ¬ (∃ a ∈ [p.addr0, p.addr1, p.addr2], a.take 2 = "18".toList) := by
      intro hx
      exact absurd ((hgi_occurs_iff p hv).mpr (by simpa using hx)) h
    simp only [List.isEmpty_nil, Bool.not_true, Bool.false_eq_true, if_false,
      Bool.not_eq_false', List.any_eq_true]
    constructor
    · rintro ⟨d, hdbl, hdc⟩
      rcases (devId_occurs_iff p hv (hbl d hdbl)).mp hdc with he | he | he
      · exact ⟨⟨p.addr0, by simp, he ▸ hdbl⟩, h18⟩
      · exact ⟨⟨p.addr1, by simp, he ▸ hdbl⟩, h18⟩
      · exact ⟨⟨p.addr2, by simp, he ▸ hdbl⟩, h18⟩
    · rintro ⟨⟨a, haL, habl⟩, -⟩
      refine ⟨a, habl, (devId_occurs_iff p hv (hbl a habl)).mpr ?_⟩
      simpa using haL

/-- Witness for the amended C2: the packet `30:111111, --:------, 30:222222`
with block list `["30:111111"]` is dropped. -/
theorem C2_blacklist_filter_witness :
    has_wanted_device pktDrop.packet [] blDrop = false ↔
      (∃ a ∈ [pktDrop.addr0, pktDrop.addr1, pktDrop.addr2], a ∈ blDrop) ∧
      ¬ (∃ a ∈ [pktDrop.addr0, pktDrop.addr1, pktDrop.addr2],
        a.take 2 = "18".toList) :=
  C2_blacklist_filter pktDrop blDrop (by decide) (by decide)

/-! ### The message-processing pipeline (`Gateway._process_payload`) -/

/-- Modelled from the spec: the `Command` class (`command.py`) is not among
the provided sources; only the attributes the gateway reads are modelled:
verb, destination, code, and the rendered command text (`str(cmd)`). -/
structure Command where
  verb : List Char
  dest : List Char
  code : List Char
  text : List Char
deriving DecidableEq

/-- Modelled from the spec: the `Message` class (`message.py`) is not among
the provided sources; only the attributes `_process_payload` reads are
modelled: verb, code, source device id (`dev_from`) and the validity flag. -/
structure Message where
  verb : List Char
  code : List Char
  dev_from : List Char
  is_valid : Bool
deriving DecidableEq

/-- The reply test of `_process_payload`: `msg.verb == "RP" and
msg.code == cmd.code`. -/
def matches_ack (msg : Message) (cmd : Command) : Bool :=
  msg.verb == "RP".toList && msg.code == cmd.code

/-- Whether the buffered command (the deque's last element, as popped by
`self._buffer.copy().pop()`) is acknowledged by `msg`. -/
def ack_consumed (buffer : List Command) (msg : Message) : Bool :=
  match buffer.getLast? with
  | none => false
  | some cmd => matches_ack msg cmd

/-- The buffer after the ack check: cleared iff the reply test succeeded. -/
def buffer_step (buffer : List Command) (msg : Message) : List Command :=
  if ack_consumed buffer msg then [] else buffer

/-- What one run of `_process_payload` did. -/
structure ProcResult where
  msg_built : Bool
  ack_consumed : Bool
  created : Bool
  updated : Bool
  buffer_after : List Command
deriving DecidableEq

/-- `Gateway._process_payload` of `evohome/__init__.py`: tier 3
(`raw_output > 2`) returns before the `Message` is built; an invalid message
returns before the ack check; tier 2 (`raw_output > 1`) returns after the ack
check; messages from a class-18 device return before `_create_entities`;
tier 1 (`raw_output > 0`) returns after `_create_entities`; tier 0 also runs
`_update_entities`. -/
def process_payload (raw_output : Nat) (buffer : List Command)
    (msg : Message) : ProcResult :=
  if raw_output > 2 then ⟨false, false, false, false, buffer⟩
  else if !msg.is_valid then ⟨true, false, false, false, buffer⟩
  else if raw_output > 1 then
    ⟨true, ack_consumed buffer msg, false, false, buffer_step buffer msg⟩
  else if msg.dev_from.take 2 == "18".toList then
    ⟨true, ack_consumed buffer msg, false, false, buffer_step buffer msg⟩
  else if raw_output > 0 then
    ⟨true, ack_consumed buffer msg, true, false, buffer_step buffer msg⟩
  else
    ⟨true, ack_consumed buffer msg, true, true, buffer_step buffer msg⟩

/-- Processing a stream of messages: the list of per-message ack flags and
the final buffer. -/
def run_payloads (raw : Nat) (buffer : List Command) :
    List Message → List Bool × List Command
  | [] => ([], buffer)
  | m :: ms =>
    let r := process_payload raw buffer m
    let rest := run_payloads raw r.buffer_after ms
    (r.ack_consumed :: rest.1, rest.2)

/-- A valid system-sync message from the controller `01:145038`. -/
def msgSync : Message :=
  ⟨" I".toList, "1F09".toList, "01:145038".toList, true⟩

/-- A valid message whose source is the adapter `18:000730`. -/
def msgHgi : Message :=
  ⟨"RQ".toList, "1F09".toList, "18:000730".toList, true⟩

/-- Claim C3: with a valid message not from a class-18 device, tier 0 runs
create and update, tier 1 only create, tier 2 neither (message still built),
and tier 3 does not even build the message. -/
theorem C3_raw_output_tiers (raw : Nat) (buffer : List Command)
    (msg : Message) (hval : msg.is_valid = true)
    (h18 : msg.dev_from.take 2 ≠ "18".toList) :
    (raw = 0 → (process_payload raw buffer msg).msg_built = true ∧
      (process_payload raw buffer msg).created = true ∧
      (process_payload raw buffer msg).updated = true) ∧
    (raw = 1 → (process_payload raw buffer msg).msg_built = true ∧
      (process_payload raw buffer msg).created = true ∧
      (process_payload raw buffer msg).updated = false) ∧
    (raw = 2 → (process_payload raw buffer msg).msg_built = true ∧
      (process_payload raw buffer msg).created = false ∧
      (process_payload raw buffer msg).updated = false) ∧
    (raw > 2 → (process_payload raw buffer msg).msg_built = false ∧
      (process_payload raw buffer msg).created = false ∧
      (process_payload raw buffer msg).updated = false) := by
  have h18b : (msg.dev_from.take 2 == "18".toList) = false :=
    beq_eq_false_iff_ne.mpr h18
  have h18p : ¬ (msg.dev_from.take 2 = ['1', '8']) := by simpa using h18
  refine ⟨?_, ?_, ?_, ?_⟩ <;> intro hr
  · subst hr
    simp [process_payload, hval, h18b, h18p]
  · subst hr
    simp [process_payload, hval, h18b, h18p]
  · subst hr
    simp [process_payload, hval, h18b, h18p]
  · unfold process_payload
    rw [if_pos hr]
    exact ⟨rfl, rfl, rfl⟩

/-- Witness for C3: the tier behaviour at `raw_output = 1` for a concrete
valid sync message from `01:145038`. -/
theorem C3_raw_output_tiers_witness :
    (1 = 0 → (process_payload 1 [] msgSync).msg_built = true ∧
      (process_payload 1 [] msgSync).created = true ∧
      (process_payload 1 [] msgSync).updated = true) ∧
    (1 = 1 → (process_payload 1 [] msgSync).msg_built = true ∧
      (process_payload 1 [] msgSync).created = true ∧
      (process_payload 1 [] msgSync).updated = false) ∧
    (1 = 2 → (process_payload 1 [] msgSync).msg_built = true ∧
      (process_payload 1 [] msgSync).created = false ∧
      (process_payload 1 [] msgSync).updated = false) ∧
    (1 > 2 → (process_payload 1 [] msgSync).msg_built = false ∧
      (process_payload 1 [] msgSync).created = false ∧
      (process_payload 1 [] msgSync).updated = false) :=
  C3_raw_output_tiers 1 [] msgSync (by decide) (by decide)

/-- Claim C4: a message whose source device has class 18 never reaches
`_create_entities` or `_update_entities`, at every tier. -/
theorem C4_adapter_never_mutates (raw : Nat) (buffer : List Command)
    (msg : Message) (h18 : msg.dev_from.take 2 = "18".toList) :
    (process_payload raw buffer msg).created = false ∧
    (process_payload raw buffer msg).updated = false := by
  have h18b : (msg.dev_from.take 2 == "18".toList) = true := beq_iff_eq.mpr h18
  unfold process_payload
  split
  · exact ⟨rfl, rfl⟩
  split
  · exact ⟨rfl, rfl⟩
  split
  · exact ⟨rfl, rfl⟩
  · simp [h18, h18b]

/-- Witness for C4: a message from the adapter `18:000730` at tier 0 leaves
the entity store untouched. -/
theorem C4_adapter_never_mutates_witness :
    (process_payload 0 [] msgHgi).created = false ∧
    (process_payload 0 [] msgHgi).updated = false :=
  C4_adapter_never_mutates 0 [] msgHgi (by decide)

/-! ### Reply matching (claim C5) -/

/-- At tiers where messages are decoded, `_process_payload` performs exactly
the `ack_consumed`/`buffer_step` buffer transition. -/
theorem process_ack (raw : Nat) (buffer : List Command) (msg : Message)
    (hval : msg.is_valid = true) (hraw : raw ≤ 2) :
    (process_payload raw buffer msg).ack_consumed = ack_consumed buffer msg ∧
    (process_payload raw buffer msg).buffer_after = buffer_step buffer msg := by
  unfold process_payload
  rw [if_neg (by omega), if_neg (by rw [hval]; simp)]
  split
  · exact ⟨rfl, rfl⟩
  split
  · exact ⟨rfl, rfl⟩
  split
  · exact ⟨rfl, rfl⟩
  · exact ⟨rfl, rfl⟩

/-- The reply test in terms of the buffered command. -/
theorem ack_iff (buffer : List Command) (msg : Message) :
    ack_consumed buffer msg = true ↔
      ∃ cmd, buffer.getLast? = some cmd ∧ msg.verb = "RP".toList ∧
        msg.code = cmd.code := by
  unfold ack_consumed
  cases hb : buffer.getLast? with
  | none => simp
  | some cmd => simp [matches_ack, Bool.and_eq_true]

/-- With an empty buffer nothing is ever consumed and the buffer stays
empty. -/
theorem process_empty (raw : Nat) (m : Message) :
    (process_payload raw [] m).ack_consumed = false ∧
    (process_payload raw [] m).buffer_after = [] := by
  have hack : ack_consumed [] m = false := rfl
  have hstep : buffer_step [] m = [] := by
    unfold buffer_step
    rw [hack]
    rfl
  unfold process_payload
  split
  · exact ⟨rfl, rfl⟩
  split
  · exact ⟨rfl, rfl⟩
  split
  · exact ⟨hack, hstep⟩
  split
  · exact ⟨hack, hstep⟩
  split
  · exact ⟨hack, hstep⟩
  · exact ⟨hack, hstep⟩

/-- Once the buffer is empty, every later ack flag is false. -/
theorem run_nil_all_false (raw : Nat) :
    ∀ (msgs : List Message) (i : Nat),
      (run_payloads raw [] msgs).1.getD i false = false := by
  intro msgs
  induction msgs with
  | nil =>
    intro i
    simp [run_payloads]
  | cons m ms ih =>
    intro i
    have hp := process_empty raw m
    have hrun1 : (run_payloads raw [] (m :: ms)).1 =
        (process_payload raw [] m).ack_consumed ::
          (run_payloads raw (process_payload raw [] m).buffer_after ms).1 := rfl
    rw [hrun1, hp.2]
    cases i with
    | zero =>
      rw [List.getD_cons_zero]
      exact hp.1
    | succ j =>
      rw [List.getD_cons_succ]
      exact ih j

/-- A message that can never match anything (`verb` is empty). -/
def defaultMsg : Message := ⟨[], [], [], false⟩

/-- The `RQ 0404` command of `_dispatch_pkt`'s buffered branch, destined to
`01:145038`. -/
def cmd0404 : Command :=
  ⟨"RQ".toList, "01:145038".toList, "0404".toList,
    "RQ --- 18:000730 01:145038 --:------ 0404 007 00230008000100".toList⟩

/-- A valid `RP 0404` reply from a different device than the command's
destination. -/
def msgWrongSrc : Message :=
  ⟨"RP".toList, "0404".toList, "01:222222".toList, true⟩

/-- A valid `RP 0404` reply from the command's destination. -/
def msgGoodReply : Message :=
  ⟨"RP".toList, "0404".toList, "01:145038".toList, true⟩

/-- Counterexample to claim C5 as stated: an `RP 0404` message from
`01:222222` is consumed as the reply of a command destined to `01:145038` —
the source never checks `msg.src` against the command's destination. -/
theorem C5_reply_src_counterexample :
    (process_payload 0 [cmd0404] msgWrongSrc).ack_consumed = true ∧
    msgWrongSrc.dev_from ≠ cmd0404.dest ∧
    msgWrongSrc.is_valid = true := by decide

/-- Claim C5 (amended): an inbound valid message (at a tier that decodes
messages) is consumed as a reply iff the buffer holds a command, the
message's verb is `RP` and its code equals that command's code — the source
address is never compared; and over a stream of messages the first match
consumes the pending entry while later matches are not consumed. -/
theorem C5_reply_matching :
    (∀ (raw : Nat) (buffer : List Command) (msg : Message),
      msg.is_valid = true → raw ≤ 2 →
      ((process_payload raw buffer msg).ack_consumed = true ↔
        ∃ cmd, buffer.getLast? = some cmd ∧ msg.verb = "RP".toList ∧
          msg.code = cmd.code)) ∧
    (∀ (raw : Nat) (c : Command) (msgs : List Message),
      (∀ m ∈ msgs, m.is_valid = true) → raw ≤ 2 →
      ∀ i, ((run_payloads raw [c] msgs).1.getD i false = true ↔
        (matches_ack (msgs.getD i defaultMsg) c = true ∧
          ∀ j, j < i → matches_ack (msgs.getD j defaultMsg) c = false))) := by
  constructor
  · intro raw buffer msg hval hraw
    rw [(process_ack raw buffer msg hval hraw).1]
    exact ack_iff buffer msg
  · intro raw c msgs
    induction msgs with
    | nil =>
      intro hvalid hraw i
      have hm : matches_ack defaultMsg c = false := rfl
      simp [run_payloads, hm]
    | cons m ms ih =>
      intro hvalid hraw i
      have hmval := hvalid m (List.mem_cons_self m ms)
      have hvtail : ∀ m' ∈ ms, m'.is_valid = true :=
        fun m' hm' => hvalid m' (List.mem_cons_of_mem m hm')
      have hpa := process_ack raw [c] m hmval hraw
      have hackc : ack_consumed [c] m = matches_ack m c := rfl
      have hrun1 : (run_payloads raw [c] (m :: ms)).1 =
          (process_payload raw [c] m).ack_consumed ::
            (run_payloads raw (process_payload raw [c] m).buffer_after ms).1 :=
        rfl
      rw [hrun1]
      cases hmc : matches_ack m c with
      | true =>
        have hstep : (process_payload raw [c] m).buffer_after = [] := by
          rw [hpa.2]
          unfold buffer_step
          rw [hackc, hmc]
          rfl
        rw [hstep, hpa.1, hackc, hmc]
        cases i with
        | zero =>
          rw [List.getD_cons_zero]
          constructor
          · intro _
            exact ⟨by rw [List.getD_cons_zero]; exact hmc,
              fun j hj => absurd hj (Nat.not_lt_zero j)⟩
          · intro _
            rfl
        | succ j =>
          rw [List.getD_cons_succ, run_nil_all_false raw ms j]
          constructor
          · intro hfalse
            exact absurd hfalse (by simp)
          · rintro ⟨-, hall⟩
            have h0 := hall 0 (Nat.succ_pos j)
            rw [List.getD_cons_zero, hmc] at h0
            exact absurd h0 (by simp)
      | false =>
        have hstep : (process_payload raw [c] m).buffer_after = [c] := by
          rw [hpa.2]
          unfold buffer_step
          rw [hackc, hmc]
          rfl
        rw [hstep, hpa.1, hackc, hmc]
        cases i with
        | zero =>
          rw [List.getD_cons_zero]
          constructor
          · intro hfalse
            exact absurd hfalse (by simp)
          · rintro ⟨h1, -⟩
            rw [List.getD_cons_zero, hmc] at h1
            exact absurd h1 (by simp)
        | succ j =>
          rw [List.getD_cons_succ]
          rw [ih hvtail hraw j]
          constructor
          · rintro ⟨h1, hall⟩
            refine ⟨by rw [List.getD_cons_succ]; exact h1, ?_⟩
            intro k hk
            cases k with
            | zero =>
              rw [List.getD_cons_zero]
              exact hmc
            | succ k' =>
              rw [List.getD_cons_succ]
              exact hall k' (Nat.lt_of_succ_lt_succ hk)
          · rintro ⟨h1, hall⟩
            rw [List.getD_cons_succ] at h1
            refine ⟨h1, ?_⟩
            intro k hk
            have hk1 := hall (k + 1) (Nat.succ_lt_succ hk)
            rw [List.getD_cons_succ] at hk1
            exact hk1

/-- Witness for the amended C5: the matching reply from `01:145038` is
consumed against the buffered `RQ 0404` command. -/
theorem C5_reply_matching_witness :
    (process_payload 0 [cmd0404] msgGoodReply).ack_consumed = true ↔
      ∃ cmd, ([cmd0404] : List Command).getLast? = some cmd ∧
        msgGoodReply.verb = "RP".toList ∧ msgGoodReply.code = cmd.code :=
  C5_reply_matching.1 0 [cmd0404] msgGoodReply (by decide) (by decide)

/-! ### Replay-file reading (claim C6) -/

/-- Modelled from the spec: `ISO_FORMAT_REGEX` lives in `evohome/const.py`,
which is not among the provided sources; the spec gives the pattern
`\d{4}-\d{2}-\d{2}T\d{2}:\d{2}:\d{2}\.\d{6}` (26 characters), matched with
`re.match` against the 26-character timestamp slice. -/
def ISO_FORMAT_REGEX_match : List Char → Bool
  | [y1, y2, y3, y4, s1, m1, m2, s2, d1, d2, t, h1, h2, c1, n1, n2, c2,
     x1, x2, dot, u1, u2, u3, u4, u5, u6] =>
    y1.isDigit && y2.isDigit && y3.isDigit && y4.isDigit && s1 == '-' &&
    m1.isDigit && m2.isDigit && s2 == '-' && d1.isDigit && d2.isDigit &&
    t == 'T' && h1.isDigit && h2.isDigit && c1 == ':' && n1.isDigit &&
    n2.isDigit && c2 == ':' && x1.isDigit && x2.isDigit && dot == '.' &&
    u1.isDigit && u2.isDigit && u3.isDigit && u4.isDigit && u5.isDigit &&
    u6.isDigit
  | _ => false

/-- Number of days in a month of the proleptic Gregorian calendar. -/
def daysInMonth (y m : Nat) : Nat :=
  if m == 2 then
    if (y % 4 == 0 && y % 100 != 0) || y % 400 == 0 then 29 else 28
  else if m == 4 || m == 6 || m == 9 || m == 11 then 30
  else 31

/-- Numeric value of a decimal digit character. -/
def digitVal (c : Char) : Nat := c.toNat - '0'.toNat

/-- Value of a two-digit decimal field. -/
def val2 (a b : Char) : Nat := 10 * digitVal a + digitVal b

/-- Modelled from the spec: `datetime.fromisoformat` on the 26-character
timestamp accepts it iff its fields form a real calendar date and time. -/
def fromisoformat_ok : List Char → Bool
  | [y1, y2, y3, y4, _, m1, m2, _, d1, d2, _, h1, h2, _, n1, n2, _,
     x1, x2, _, _, _, _, _, _, _] =>
    let y := 1000 * digitVal y1 + 100 * digitVal y2 + 10 * digitVal y3
      + digitVal y4
    let mo := val2 m1 m2
    let da := val2 d1 d2
    1 ≤ y && 1 ≤ mo && mo ≤ 12 && 1 ≤ da && da ≤ daysInMonth y mo &&
      val2 h1 h2 ≤ 23 && val2 n1 n2 ≤ 59 && val2 x1 x2 ≤ 59
  | _ => false

/-- Python's `str.strip()`: whitespace removed from both ends. -/
def pyStrip (s : List Char) : List Char :=
  ((s.dropWhile Char.isWhitespace).reverse.dropWhile Char.isWhitespace).reverse

/-- The `RAW_PKT` pair built by `file_reader`: the 26-character timestamp
slice `ts_pkt[:26]` and the stripped packet text `ts_pkt[27:].strip()`. -/
structure RawPkt where
  datetime : List Char
  packet : List Char
deriving DecidableEq

/-- `file_reader` of `Gateway.start` (`evohome/__init__.py`): for each line,
the timestamp slice must match `ISO_FORMAT_REGEX` and parse with
`fromisoformat`, else the line is skipped (`continue`); a line with an empty
packet field is also skipped; surviving lines are processed in order. -/
def file_reader : List (List Char) → List RawPkt
  | [] => []
  | line :: rest =>
    let dtm := line.take 26
    let pkt := pyStrip (line.drop 27)
    if ISO_FORMAT_REGEX_match dtm && fromisoformat_ok dtm then
      if !pkt.isEmpty then ⟨dtm, pkt⟩ :: file_reader rest
      else file_reader rest
    else file_reader rest

/-- Spec scenario 3: a replay line whose timestamp lacks microseconds. -/
def badLine : List Char :=
  "2020-11-30T13:15:00 045  I --- 01:145038 --:------ 01:145038 1F09 003 FF073F".toList

/-- A replay line with a full 26-character timestamp. -/
def goodLine : List Char :=
  "2020-11-30T13:15:00.123456 045  I --- 01:145038 --:------ 01:145038 1F09 003 FF073F".toList

/-- Claim C6: a replay line whose leading timestamp does not match
`YYYY-MM-DDTHH:MM:SS.ffffff` is dropped (no exception — `file_reader` is a
total function) and the following lines are processed normally; a line with a
valid timestamp and non-empty packet field is processed. -/
theorem C6_replay_timestamp_filter :
    (∀ (line : List Char) (rest : List (List Char)),
      ISO_FORMAT_REGEX_match (line.take 26) = false →
      file_reader (line :: rest) = file_reader rest) ∧
    (∀ (line : List Char) (rest : List (List Char)),
      ISO_FORMAT_REGEX_match (line.take 26) = true →
      fromisoformat_ok (line.take 26) = true →
      pyStrip (line.drop 27) ≠ [] →
      file_reader (line :: rest) =
        ⟨line.take 26, pyStrip (line.drop 27)⟩ :: file_reader rest) ∧
    file_reader [badLine, goodLine] =
      [⟨goodLine.take 26, pyStrip (goodLine.drop 27)⟩] := by
  refine ⟨?_, ?_, by decide⟩
  · intro line rest h
    simp only [file_reader]
    rw [h]
    simp
  · intro line rest h1 h2 h3
    have h4 : (pyStrip (line.drop 27)).isEmpty = false := by
      cases hpk : pyStrip (line.drop 27) with
      | nil => exact absurd hpk h3
      | cons a t => rfl
    simp only [file_reader]
    rw [h1, h2, h4]
    simp

/-- Witness for C6: the concrete bad line (missing microseconds) is dropped
while a following good line is processed. -/
theorem C6_replay_timestamp_filter_witness :
    file_reader [badLine, goodLine] = file_reader [goodLine] :=
  C6_replay_timestamp_filter.1 badLine [goodLine] (by decide)

/-! ### `DEFAULT_MAX_ZONES` (claim C7) -/

/-- `DEV_MODE` of `ramses_rf/const.py`, line 9: `True` in this source. -/
def DEV_MODE : Bool := true

/-- The expression `16 if DEV_MODE else 12` of `ramses_rf/const.py`. -/
def DEFAULT_MAX_ZONES_expr (dev_mode : Bool) : Nat :=
  if dev_mode then 16 else 12

/-- `DEFAULT_MAX_ZONES` of `ramses_rf/const.py`, line 81. -/
def DEFAULT_MAX_ZONES : Nat := DEFAULT_MAX_ZONES_expr DEV_MODE

/-- Counterexample to claim C7 as stated: the default maximum number of
zones in this source is not 12 — `DEV_MODE` is `True`, so
`DEFAULT_MAX_ZONES` evaluates to 16. -/
theorem C7_max_zones_counterexample :
    DEFAULT_MAX_ZONES = 16 ∧ DEFAULT_MAX_ZONES ≠ 12 := by decide

/-- Claim C7 (amended): `DEFAULT_MAX_ZONES` is `16 if DEV_MODE else 12`;
`DEV_MODE` is true in this source, so the default is 16 (the production
value, with `DEV_MODE` false, would be 12). -/
theorem C7_max_zones :
    DEFAULT_MAX_ZONES_expr false = 12 ∧ DEFAULT_MAX_ZONES_expr true = 16 ∧
    DEV_MODE = true ∧ DEFAULT_MAX_ZONES = 16 := by decide

/-! ### Configuration normalisation in `Gateway.__init__` (claim C8) -/

/-- The configuration keys `Gateway.__init__` normalises. -/
structure GwConfig where
  input_file : Option (List Char)
  probe_system : Bool
  execute_cmd : Option (List Char)
  listen_only : Bool
  raw_output : Nat
  message_log : Option (List Char)
deriving DecidableEq

/-- The normalisation steps of `Gateway.__init__` (`evohome/__init__.py`):
drop the input file when a serial port is given; set `listen_only` to
`not probe_system`; with an input file, force `listen_only` and clear
`execute_cmd`; with `raw_output > 2`, disable `message_log`. -/
def gateway_init_config (serial_port : Option (List Char))
    (cfg : GwConfig) : GwConfig :=
  let cfg1 :=
    if serial_port.isSome && cfg.input_file.isSome then
      { cfg with input_file := none }
    else cfg
  let cfg2 := { cfg1 with listen_only := !cfg1.probe_system }
  let cfg3 :=
    if cfg2.input_file.isSome then
      let cfg3a :=
        if !cfg2.listen_only then { cfg2 with listen_only := true } else cfg2
      if cfg3a.execute_cmd.isSome then { cfg3a with execute_cmd := none }
      else cfg3a
    else cfg2
  if cfg3.raw_output > 2 && cfg3.message_log.isSome then
    { cfg3 with message_log := none }
  else cfg3

/-- Claim C8: with both a serial port and an input file, the input file is
reset to `None`; when an input file is the packet source, `listen_only` is
forced to true and `execute_cmd` is cleared; whenever the normalised config
has no input file, `listen_only` is exactly `not probe_system`. -/
theorem C8_config_normalisation (sp : Option (List Char)) (cfg : GwConfig) :
    ((gateway_init_config sp cfg).input_file =
      (if sp.isSome then none else cfg.input_file)) ∧
    (sp = none → cfg.input_file.isSome = true →
      (gateway_init_config sp cfg).listen_only = true ∧
      (gateway_init_config sp cfg).execute_cmd = none) ∧
    ((gateway_init_config sp cfg).input_file = none →
      (gateway_init_config sp cfg).listen_only = !cfg.probe_system) := by
  rcases sp with _ | s <;>
    rcases cfg with ⟨inf, pb, ex, lo, ro, ml⟩ <;>
    rcases inf with _ | f <;>
    rcases pb <;>
    rcases ex with _ | e <;>
    simp_all [gateway_init_config] <;>
    split <;>
    simp_all

/-- Witness for C8: a config with serial port `/dev/ttyUSB0`, an input file,
`probe_system` false and an `execute_cmd`. -/
theorem C8_config_normalisation_witness :
    ((gateway_init_config (some "/dev/ttyUSB0".toList)
        ⟨some "pkts.log".toList, false, some "RQ 01:145038 1F09 FF".toList,
          false, 0, none⟩).input_file =
      (if (some "/dev/ttyUSB0".toList).isSome then none
       else some "pkts.log".toList)) ∧
    (some "/dev/ttyUSB0".toList = none →
      (some "pkts.log".toList).isSome = true →
      (gateway_init_config (some "/dev/ttyUSB0".toList)
        ⟨some "pkts.log".toList, false, some "RQ 01:145038 1F09 FF".toList,
          false, 0, none⟩).listen_only = true ∧
      (gateway_init_config (some "/dev/ttyUSB0".toList)
        ⟨some "pkts.log".toList, false, some "RQ 01:145038 1F09 FF".toList,
          false, 0, none⟩).execute_cmd = none) ∧
    ((gateway_init_config (some "/dev/ttyUSB0".toList)
        ⟨some "pkts.log".toList, false, some "RQ 01:145038 1F09 FF".toList,
          false, 0, none⟩).input_file = none →
      (gateway_init_config (some "/dev/ttyUSB0".toList)
        ⟨some "pkts.log".toList, false, some "RQ 01:145038 1F09 FF".toList,
          false, 0, none⟩).listen_only = !false) :=
  C8_config_normalisation (some "/dev/ttyUSB0".toList)
    ⟨some "pkts.log".toList, false, some "RQ 01:145038 1F09 FF".toList,
      false, 0, none⟩

/-! ### `select_device_filter_mode` (claim C9) -/

/-- `select_device_filter_mode` of `ramses_rf/protocol/schemas.py`: the
`enforce_known_list` flag is cleared when the known list is empty (the other
branches only log) and then returned. -/
def select_device_filter_mode (enforce_known_list : Bool)
    (known_list block_list : List (List Char)) : Bool :=
  let enforce :=
    if enforce_known_list && known_list.isEmpty then false
    else enforce_known_list
  enforce

/-- Claim C9: with `enforce_known_list` true and an empty known list the
function returns false (whitelist enforcement silently disabled); in every
other case it returns the flag unchanged. -/
theorem C9_empty_known_list (enforce : Bool)
    (known block : List (List Char)) :
    (enforce = true → known = [] →
      select_device_filter_mode enforce known block = false) ∧
    (¬ (enforce = true ∧ known = []) →
      select_device_filter_mode enforce known block = enforce) := by
  constructor
  · intro he hk
    subst he
    subst hk
    rfl
  · intro h
    unfold select_device_filter_mode
    cases he : enforce with
    | false => simp
    | true =>
      have hk : known ≠ [] := fun hnil => h ⟨he, hnil⟩
      have hke : known.isEmpty = false := by
        cases known with
        | nil => exact absurd rfl hk
        | cons a t => rfl
      simp [hke]

/-- Witness for C9: an enforced but empty known list yields `false`, and a
non-empty known list leaves the flag unchanged. -/
theorem C9_empty_known_list_witness :
    select_device_filter_mode true [] [] = false ∧
    select_device_filter_mode true ["01:145038".toList] [] = true :=
  ⟨(C9_empty_known_list true [] []).1 rfl rfl,
   (C9_empty_known_list true ["01:145038".toList] []).2 (by simp)⟩

/-! ### `Gateway._dispatch_pkt` (claim C10) -/

/-- Python's `str(cmd).startswith("!")`. -/
def startsBang (text : List Char) : Bool :=
  match text with
  | '!' :: _ => true
  | _ => false

/-- `Gateway._dispatch_pkt` of `evohome/__init__.py`: drain the queue; a
command starting with `"!"` is written whenever a destination exists; with
no destination or in `listen_only` mode other commands are discarded; an
`RQ 0404` command is written through its retry loop (`retrans`, whose length
depends on reply timing); any other command is written once.  Returns the
written commands and the queue left when the loop exits. -/
def dispatch_pkt (listen_only has_dest : Bool)
    (retrans : Command → List Command) :
    List Command → List Command × List Command
  | [] => ([], [])
  | cmd :: rest =>
    let writes :=
      if has_dest && startsBang cmd.text then [cmd]
      else if !has_dest || listen_only then []
      else if cmd.verb == "RQ".toList && cmd.code == "0404".toList then
        retrans cmd
      else [cmd]
    let r := dispatch_pkt listen_only has_dest retrans rest
    (writes ++ r.1, r.2)

/-- Claim C10: when `listen_only` is set (or there is no destination),
`_dispatch_pkt` drains the whole queue, writing nothing except `"!"`
commands when a destination exists, and the queue is empty on return. -/
theorem C10_listen_only_drains_queue (listen_only has_dest : Bool)
    (retrans : Command → List Command) (q : List Command)
    (h : listen_only = true ∨ has_dest = false) :
    (dispatch_pkt listen_only has_dest retrans q).1 =
      (if has_dest then q.filter (fun c => startsBang c.text) else []) ∧
    (dispatch_pkt listen_only has_dest retrans q).2 = [] := by
  induction q with
  | nil =>
    cases has_dest <;> simp [dispatch_pkt]
  | cons c rest ih =>
    rcases h with h | h
    · subst h
      cases has_dest with
      | true =>
        cases hb : startsBang c.text with
        | true => simp_all [dispatch_pkt, List.filter]
        | false => simp_all [dispatch_pkt, List.filter]
      | false => simp_all [dispatch_pkt]
    · subst h
      simp_all [dispatch_pkt]

/-- Witness for C10: a queue holding an adapter command `!V` and an ordinary
command, drained in listen-only mode with a destination present. -/
theorem C10_listen_only_drains_queue_witness :
    (dispatch_pkt true true (fun c => [c])
        [⟨[], [], [], "!V".toList⟩, cmd0404]).1 =
      (if true then
        ([⟨[], [], [], "!V".toList⟩, cmd0404] : List Command).filter
          (fun c => startsBang c.text)
       else []) ∧
    (dispatch_pkt true true (fun c => [c])
        [⟨[], [], [], "!V".toList⟩, cmd0404]).2 = [] :=
  C10_listen_only_drains_queue true true (fun c => [c])
    [⟨[], [], [], "!V".toList⟩, cmd0404] (Or.inl rfl)

end EvohomeRF
